import Mathlib

/-!
# Verification of the event-stream translation and session-state engine

Shallow embedding of the core of `claude-code-acp` (`src/index.ts`,
`OpenCodeAcpAgent`): the event loop handling `message.part.updated`
events (echo filter, delta tracker, tool permission arbiter, fall-through
to `toAcpNotifications`), the notification mapper `toAcpNotifications`,
`mapToolKind`, the background terminal tracker, the tail of `prompt`
(stop-reason determination), and `setSessionMode`.

JavaScript strings are modelled as `List Char`; `String.prototype.substring(start)`
becomes `List.drop start`, `length` becomes `List.length`. JavaScript maps and
object tables keyed by strings are modelled as association lists.
-/

set_option autoImplicit false

namespace AcpAgent

/-- Shorthand turning a Lean string literal into the `List Char` model of a
JavaScript string. -/
def str (s : String) : List Char := s.toList

/-- Lookup in an association list, modelling `map.get(k)` / `table[k]`. -/
def alGet {α : Type} (m : List (String × α)) (k : String) : Option α :=
  match m with
  | [] => none
  | (k₂, v) :: rest => if k₂ = k then some v else alGet rest k

/-- Update / insert in an association list, modelling `map.set(k, v)` /
`table[k] = v`. Replaces in place if the key exists, otherwise appends. -/
def alSet {α : Type} (m : List (String × α)) (k : String) (v : α) :
    List (String × α) :=
  match m with
  | [] => [(k, v)]
  | (k₂, w) :: rest => if k₂ = k then (k₂, v) :: rest else (k₂, w) :: alSet rest k v

/-- Deletion from an association list, modelling `delete table[k]`. -/
def alDelete {α : Type} (m : List (String × α)) (k : String) :
    List (String × α) :=
  match m with
  | [] => []
  | (k₂, w) :: rest => if k₂ = k then rest else (k₂, w) :: alDelete rest k

theorem alGet_alSet {α : Type} (m : List (String × α)) (k : String) (v : α) :
    alGet (alSet m k v) k = some v := by
  induction m with
  | nil => simp [alGet, alSet]
  | cons hd tl ih =>
      obtain ⟨k₂, w⟩ := hd
      by_cases h : k₂ = k <;> simp [alGet, alSet, h, ih]

/-- JavaScript `s.startsWith(pre)`, modelled on the `List Char` view of the
string. Used by `mapToolKind` and the file-part MIME test. -/
def jsStartsWith (s pre : String) : Bool :=
  List.isPrefixOf pre.toList s.toList

/-- Session permission mode: `"default" | "acceptEdits" | "bypassPermissions" | "plan"`. -/
inductive PermissionMode where
  | default
  | acceptEdits
  | bypassPermissions
  | plan
deriving DecidableEq

/-- The ACP `ToolKind` enumeration used by `mapToolKind`. -/
inductive ToolKind where
  | read
  | edit
  | execute
  | search
  | fetch
  | think
  | switchMode
  | other
deriving DecidableEq

/-- `mapToolKind` (src/index.ts:1812-1832): derives the ACP tool kind from
the upstream tool name by a chain of `startsWith` tests, in source order. -/
def mapToolKind (toolName : String) : ToolKind :=
  if jsStartsWith toolName "read" then .read
  else if jsStartsWith toolName "write" || jsStartsWith toolName "edit" ||
      jsStartsWith toolName "apply" || jsStartsWith toolName "insert" then .edit
  else if jsStartsWith toolName "execute" then .execute
  else if jsStartsWith toolName "search" || jsStartsWith toolName "list" then .search
  else if jsStartsWith toolName "browser" then .fetch
  else if jsStartsWith toolName "update" || jsStartsWith toolName "ask" ||
      jsStartsWith toolName "new_task" then .think
  else if jsStartsWith toolName "switch" then .switchMode
  else .other

/-- Tool-kind inference written from the specification text: "first matching
prefix wins, checked in this order: read→Read; write/edit/apply/insert→Edit;
execute→Execute; search/list→Search; browser→Fetch; update/ask/new_task→Think;
switch→SwitchMode; else→Other". Used only to compare with `mapToolKind`. -/
def mapToolKindSpec (toolName : String) : ToolKind :=
  if jsStartsWith toolName "read" then .read
  else if jsStartsWith toolName "write" || jsStartsWith toolName "edit" ||
      jsStartsWith toolName "apply" || jsStartsWith toolName "insert" then .edit
  else if jsStartsWith toolName "execute" then .execute
  else if jsStartsWith toolName "search" || jsStartsWith toolName "list" then .search
  else if jsStartsWith toolName "browser" then .fetch
  else if jsStartsWith toolName "update" || jsStartsWith toolName "ask" ||
      jsStartsWith toolName "new_task" then .think
  else if jsStartsWith toolName "switch" then .switchMode
  else .other

/-- ACP tool-call status values used by the agent. -/
inductive ToolCallStatus where
  | pending
  | inProgress
  | completed
  | failed
deriving DecidableEq

/-- Content of an `agent_message_chunk` notification: a text block or an
image block (`file` parts with an `image/*` MIME type). -/
inductive ChunkContent where
  | textChunk (text : List Char)
  | imageChunk (mime url : String)
deriving DecidableEq

/-- One element of the `content` array of a tool-call notification:
a `content`-wrapped text block or a `diff` block. -/
inductive UpdateContent where
  | contentText (text : List Char)
  | diffContent (path : String) (oldText : Option (List Char)) (newText : List Char)
deriving DecidableEq

/-- A downstream `sessionUpdate` notification body. `content`/`locations`
pass-through fields that the source reads as `(part as any).content || []`
(always `[]` at runtime for SDK tool parts) are modelled by the `content`
list; `locations` carries no information used anywhere and is omitted. -/
inductive AcpUpdate where
  | agentMessageChunk (content : ChunkContent)
  | agentThoughtChunk (text : List Char)
  | toolCall (toolCallId title : String) (status : ToolCallStatus) (kind : ToolKind)
      (content : List UpdateContent)
  | toolCallUpdate (toolCallId : String) (title : Option String)
      (status : ToolCallStatus) (content : List UpdateContent)
  | planUpdate (entries : List (List Char))
deriving DecidableEq

/-- The output stored in a `completed` tool state: either a file-diff shaped
object (has `path` and `newText` fields) or anything else, carried as its
`JSON.stringify` rendering. -/
inductive ToolOutput where
  | fileDiff (path : String) (oldText : Option (List Char)) (newText : List Char)
  | serialized (text : List Char)
deriving DecidableEq

/-- Tool-call lifecycle state carried inside a `tool` part. For `running`,
`input` carries the `JSON.stringify(state.input || {})` rendering. For
`error`, `err` carries the `JSON.stringify(state.error)` rendering. -/
inductive ToolState where
  | pending
  | running (title : Option String) (input : List Char)
  | completed (output : ToolOutput)
  | error (err : List Char)
deriving DecidableEq

/-- The upstream part union, restricted to the fields the translation reads.
`textPart.time` is `none` when the snapshot carries no timestamp field.
`otherPart` stands for `snapshot`/`agent`/`step-start`/`step-finish` and
unrecognized part types, none of which produce a downstream update. -/
inductive EvPart where
  | textPart (id : String) (text : List Char) (time : Option Nat)
  | reasoningPart (id : String) (text : List Char)
  | toolPart (callID tool : String) (state : ToolState)
  | filePart (filename : Option String) (url mime : String)
  | patchPart (hash : String) (files : List String)
  | otherPart
deriving DecidableEq

/-- A message-level error on an assistant message. `message` carries the
`error.message || JSON.stringify(error.data)` rendering. -/
structure MessageErr where
  name : String
  message : String
deriving DecidableEq

/-- `JSON.stringify` of a completed tool output object. -/
def stringifyToolOutput : ToolOutput → List Char
  | .serialized s => s
  | .fileDiff path oldText newText =>
      str "\x7b\"path\":\"" ++ str path ++ str "\",\"oldText\":" ++
        (match oldText with
         | some o => str "\"" ++ o ++ str "\""
         | none => str "null") ++
        str ",\"newText\":\"" ++ newText ++ str "\"\x7d"

/-- `toAcpNotifications` (src/index.ts:1647-1810): stateless mapping of one
upstream part snapshot (plus an optional message-level error) to a list of
downstream notification bodies. -/
def toAcpNotifications (messageError : Option MessageErr) (messagePart : EvPart) :
    List AcpUpdate :=
  let update : Option AcpUpdate :=
    match messagePart with
    | .textPart _ text _ =>
        some (.agentMessageChunk (.textChunk text))
    | .toolPart callID tool st =>
        match st with
        | .pending =>
            some (.toolCall callID tool .pending (mapToolKind tool) [])
        | .running title input =>
            some (.toolCallUpdate callID (some (title.getD tool)) .inProgress
              [.contentText (str "Tool input: " ++ input)])
        | .completed output =>
            if mapToolKind tool = .edit then
              match output with
              | .fileDiff path oldText newText =>
                  some (.toolCallUpdate callID none .completed
                    [.diffContent path oldText newText])
              | .serialized _ =>
                  some (.toolCallUpdate callID none .completed
                    [.contentText (stringifyToolOutput output)])
            else
              some (.toolCallUpdate callID none .completed
                [.contentText (stringifyToolOutput output)])
        | .error err =>
            some (.toolCallUpdate callID none .failed [.contentText err])
    | .filePart filename url mime =>
        some (.agentMessageChunk
          (if jsStartsWith mime "image/" then .imageChunk mime url
           else .textChunk (str "File: " ++ str (filename.getD url) ++ str " (" ++
             str mime ++ str ")")))
    | .reasoningPart _ text =>
        some (.planUpdate [text])
    | .patchPart hash files =>
        some (.toolCall ("patch-" ++ hash)
          ("Applying patch to " ++ String.intercalate ", " files) .completed .edit
          [.contentText (str "Patch applied with hash: " ++ str hash)])
    | .otherPart => none
  let base := match update with
    | some u => [u]
    | none => []
  match messageError with
  | some e =>
      base ++ [.agentMessageChunk (.textChunk
        (str "Error from OpenCode: " ++ str e.name ++ str " - " ++ str e.message))]
  | none => base

/-- Which call site of the event loop emitted an action: the inline text /
reasoning delta branches (`eventLoop`), the tool-permission branch
(src/index.ts:864-956, `arbiter`), or the fall-through call to
`toAcpNotifications` (src/index.ts:958-967, `mapper`). -/
inductive Origin where
  | eventLoop
  | arbiter
  | mapper
deriving DecidableEq

/-- An observable action of the event loop: a `sessionUpdate` notification
sent downstream, or a blocking `requestPermission` call. -/
inductive AgentAction where
  | sessionUpdate (origin : Origin) (update : AcpUpdate)
  | permissionRequest (toolCallId : String) (title : String)
deriving DecidableEq

/-- Outcome of a `requestPermission` round trip: the client selected an
option, or returned a non-`selected` outcome (for example `cancelled`). -/
inductive PermissionOutcome where
  | selected (optionId : String)
  | notSelected (outcome : String)
deriving DecidableEq

/-- The source's grant test, negated form of
`outcome.outcome !== "selected" || outcome.optionId !== "allow_once"`. -/
def isAllowOnceSelected : PermissionOutcome → Bool
  | .selected optionId => optionId = "allow_once"
  | .notSelected _ => false

/-- Per-session state read and written by the event loop. -/
structure SessionState where
  permissionMode : PermissionMode
  cancelled : Bool
  lastSentTextByMessagePartId : List (String × List Char)
deriving DecidableEq

/-- The mapper fall-through at src/index.ts:958-967: each notification body
returned by `toAcpNotifications ({} placeholder, so no message error)` is
sent downstream. -/
def mapperActions (p : EvPart) : List AgentAction :=
  (toAcpNotifications none p).map (fun u => .sessionUpdate .mapper u)

/-- One iteration of the event loop for a `message.part.updated` event whose
session exists (src/index.ts:792-968). `resp` is the client's answer to
the blocking permission request; it is consulted only on the branch that
actually issues that request (`default` mode, pending tool part). Returns
the updated session state and the actions performed, in order. -/
def handlePartEvent (session : SessionState) (part : EvPart)
    (resp : PermissionOutcome) : SessionState × List AgentAction :=
  match part with
  | .textPart id text time =>
      match time with
      | none =>
          -- Echo filter (src/index.ts:801-807): a text part with no
          -- timestamp is dropped before any state is read or written.
          (session, [])
      | some _ =>
          -- Delta calculation for text parts (src/index.ts:819-839).
          let previousText := (alGet session.lastSentTextByMessagePartId id).getD []
          let deltaText := text.drop previousText.length
          let session' := { session with
            lastSentTextByMessagePartId :=
              alSet session.lastSentTextByMessagePartId id text }
          (session',
            if deltaText.length > 0 then
              [.sessionUpdate .eventLoop (.agentMessageChunk (.textChunk deltaText))]
            else [])
  | .reasoningPart id text =>
      -- Delta calculation for reasoning parts (src/index.ts:842-861).
      let previousText := (alGet session.lastSentTextByMessagePartId id).getD []
      let deltaText := text.drop previousText.length
      let session' := { session with
        lastSentTextByMessagePartId :=
          alSet session.lastSentTextByMessagePartId id text }
      (session',
        if deltaText.length > 0 then
          [.sessionUpdate .eventLoop (.agentThoughtChunk deltaText)]
        else [])
  | .toolPart callID tool st =>
      match st with
      | .pending =>
          -- Tool permission arbiter (src/index.ts:864-956). There is no
          -- `continue` after this block, so except on the two denial paths
          -- control falls through to the mapper (src/index.ts:958-967).
          let toolDescription := "Allow agent to run tool: " ++ tool ++ "?"
          match session.permissionMode with
          | .bypassPermissions | .acceptEdits =>
              -- permissionGranted = true; the mode is not "default", so the
              -- arbiter sends the pending tool_call (src/index.ts:942-954),
              -- then falls through to the mapper.
              (session,
                [.sessionUpdate .arbiter
                  (.toolCall callID tool .pending (mapToolKind tool) [])] ++
                mapperActions (.toolPart callID tool .pending))
          | .plan =>
              -- Auto-deny (src/index.ts:874-889), then `continue`.
              (session,
                [.sessionUpdate .arbiter (.toolCallUpdate callID none .failed
                  [.contentText (str "Tool execution blocked in Plan Mode.")])])
          | .default =>
              -- Always ask (src/index.ts:890-936): pending tool_call, then
              -- the blocking permission request.
              let askActions : List AgentAction :=
                [.sessionUpdate .arbiter
                  (.toolCall callID tool .pending (mapToolKind tool) []),
                 .permissionRequest callID toolDescription]
              if isAllowOnceSelected resp then
                -- permissionGranted stays false, so the arbiter adds nothing
                -- more; control falls through to the mapper.
                (session, askActions ++ mapperActions (.toolPart callID tool .pending))
              else
                -- Denied: Failed update, then `continue`.
                (session, askActions ++
                  [.sessionUpdate .arbiter (.toolCallUpdate callID none .failed
                    [.contentText (str "Permission for tool \x27" ++ str tool ++
                      str "\x27 denied.")])])
      | _ =>
          -- Non-pending tool parts skip the arbiter and go to the mapper.
          (session, mapperActions (.toolPart callID tool st))
  | p =>
      -- file / patch / other parts go straight to the mapper.
      (session, mapperActions p)

/-- Background terminal status (src/index.ts:712). -/
inductive TermStatus where
  | started
  | aborted
  | exited
  | killed
  | timedOut
deriving DecidableEq

/-- The nullable exit status `{ exitCode, signal }` of a terminal. -/
structure TermExitStatus where
  exitCode : Option Int
  signal : Option String
deriving DecidableEq

/-- One tracked background terminal (src/index.ts:709-713). -/
structure BackgroundTerminal where
  shellId : String
  output : List Char
  exitStatus : Option TermExitStatus
  status : TermStatus
deriving DecidableEq

/-- The `backgroundTerminals` table. -/
def TermMap : Type := List (String × BackgroundTerminal)

/-- `terminal/kill` (src/index.ts:1366-1374): throws if the terminal is
unknown, otherwise unconditionally sets its status to `killed` (the SDK has
no kill primitive; this is a local mark with no status guard). -/
def killTerminal (terminals : TermMap) (terminalId : String) :
    Except String TermMap :=
  match alGet terminals terminalId with
  | none => .error ("Terminal not found: " ++ terminalId)
  | some t => .ok (alSet terminals terminalId { t with status := .killed })

/-- `terminalOutput` (src/index.ts:1340-1350): read-only; returns the stored
output, `truncated = false`, and the stored exit status. -/
def terminalOutput (terminals : TermMap) (terminalId : String) :
    Except String (List Char × Bool × Option TermExitStatus) :=
  match alGet terminals terminalId with
  | none => .error ("Terminal not found: " ++ terminalId)
  | some t => .ok (t.output, false, t.exitStatus)

/-- `waitForTerminalExit` (src/index.ts:1352-1364): polls the stored status
every 500ms while it is `started`. Modelled as one poll: `none` means the
loop would keep sleeping, `some` is the value returned once the status has
left `started` — `exitStatus?.exitCode ?? null` and `exitStatus?.signal ?? null`. -/
def waitForTerminalExit (terminals : TermMap) (terminalId : String) :
    Except String (Option (Option Int × Option String)) :=
  match alGet terminals terminalId with
  | none => .error ("Terminal not found: " ++ terminalId)
  | some t =>
      .ok (if t.status = .started then none
        else some (t.exitStatus.bind (fun e => e.exitCode),
          t.exitStatus.bind (fun e => e.signal)))

/-- `releaseTerminal` (src/index.ts:1376-1384): throws if unknown, otherwise
deletes the local record. -/
def releaseTerminal (terminals : TermMap) (terminalId : String) :
    Except String TermMap :=
  match alGet terminals terminalId with
  | none => .error ("Terminal not found: " ++ terminalId)
  | some _ => .ok (alDelete terminals terminalId)

/-- The ACP stop reasons produced by `prompt`. -/
inductive StopReason where
  | endTurn
  | cancelled
  | refusal
deriving DecidableEq

/-- The final assistant message info, restricted to the field `prompt`
reads when determining the stop reason. -/
structure AssistantInfo where
  error : Option MessageErr
deriving DecidableEq

/-- Stop-reason determination (src/index.ts:1163-1175): no error means
`end_turn`; a `MessageAbortedError` means `cancelled`; any other message
error means `refusal`. -/
def promptStopReason (info : AssistantInfo) : StopReason :=
  match info.error with
  | none => .endTurn
  | some e => if e.name = "MessageAbortedError" then .cancelled else .refusal

/-- The tail of `prompt` (src/index.ts:1153-1179): a transport-level prompt
error or an empty response is thrown; otherwise the stop reason derived
from the final message is returned — message-level errors are never thrown. -/
def promptFinish (promptError : Option String) (promptData : Option AssistantInfo) :
    Except String StopReason :=
  match promptError with
  | some e => .error e
  | none =>
      match promptData with
      | none => .error "Unexpected empty response from Opencode prompt."
      | some info => .ok (promptStopReason info)

/-- The `switch` statement of `setSessionMode` (src/index.ts:1197-1206):
the four literal mode ids map to the corresponding mode, anything else
falls to the `default:` throw. -/
def parsePermissionMode (modeId : String) : Option PermissionMode :=
  if modeId = "default" then some .default
  else if modeId = "acceptEdits" then some .acceptEdits
  else if modeId = "plan" then some .plan
  else if modeId = "bypassPermissions" then some .bypassPermissions
  else none

/-- `setSessionMode` (src/index.ts:1192-1207): throws "Session not found"
for an unknown session; for a known session, a recognized mode id replaces
only that session's `permissionMode`, any other mode id throws
"Invalid mode" before any mutation. -/
def setSessionMode (sessions : List (String × SessionState))
    (sessionId modeId : String) :
    Except String (List (String × SessionState)) :=
  match alGet sessions sessionId with
  | none => .error "Session not found"
  | some s =>
      match parsePermissionMode modeId with
      | some m => .ok (alSet sessions sessionId { s with permissionMode := m })
      | none => .error "Invalid mode"

/-- Feeding a sequence of cumulative text snapshots for one part id through
the event loop, collecting the actions in order. All snapshots carry a
timestamp (assistant-authored), so none is echo-filtered. -/
def feedTextSnapshots (session : SessionState) (id : String) :
    List (List Char) → SessionState × List AgentAction
  | [] => (session, [])
  | t :: rest =>
      let step := handlePartEvent session (.textPart id t (some 0)) (.notSelected "cancelled")
      let next := feedTextSnapshots step.1 id rest
      (next.1, step.2 ++ next.2)

/-- The texts of the `agent_message_chunk` notifications among a list of
actions, in order. -/
def emittedChunkTexts (actions : List AgentAction) : List (List Char) :=
  actions.filterMap (fun a =>
    match a with
    | .sessionUpdate _ (.agentMessageChunk (.textChunk t)) => some t
    | _ => none)

/-- `chainFromB p ts` holds when `p, ts[0], ts[1], …` is a chain under the
prefix relation: `p` is a prefix of the first element and each element is a
prefix of the next. -/
def chainFromB (p : List Char) : List (List Char) → Bool
  | [] => true
  | t :: rest => p.isPrefixOf t && chainFromB t rest

theorem isPrefixOf_append_drop :
    ∀ p t : List Char, p.isPrefixOf t = true → p ++ t.drop p.length = t := by
  intro p
  induction p with
  | nil => intro t _; simp
  | cons x xs ih =>
      intro t h
      cases t with
      | nil => simp [List.isPrefixOf] at h
      | cons y ys =>
          simp only [List.isPrefixOf, Bool.and_eq_true, beq_iff_eq] at h
          obtain ⟨rfl, h₂⟩ := h
          simpa using ih ys h₂

/-- Tests whether an action is a `tool_call` notification with status Pending. -/
def isPendingToolCallB : AgentAction → Bool
  | .sessionUpdate _ (.toolCall _ _ .pending _ _) => true
  | _ => false

/-- Tests whether an action is a blocking permission request. -/
def isPermissionRequestB : AgentAction → Bool
  | .permissionRequest _ _ => true
  | _ => false

/-- Tests whether an action is a notification emitted by the tool permission
arbiter (src/index.ts:864-956). -/
def isArbiterUpdateB : AgentAction → Bool
  | .sessionUpdate .arbiter _ => true
  | _ => false

theorem handle_text_step (session : SessionState) (id : String) (t : List Char)
    (ts : Nat) (r : PermissionOutcome) :
    handlePartEvent session (.textPart id t (some ts)) r =
      ({ session with lastSentTextByMessagePartId :=
          (alSet session.lastSentTextByMessagePartId id t) },
       if (t.drop ((alGet session.lastSentTextByMessagePartId id).getD []).length).length > 0
       then [.sessionUpdate .eventLoop (.agentMessageChunk (.textChunk
         (t.drop ((alGet session.lastSentTextByMessagePartId id).getD []).length)))]
       else []) := rfl

theorem feedTextSnapshots_cons (session : SessionState) (id : String)
    (t : List Char) (rest : List (List Char)) :
    feedTextSnapshots session id (t :: rest)
      = ((feedTextSnapshots { session with lastSentTextByMessagePartId :=
            (alSet session.lastSentTextByMessagePartId id t) } id rest).1,
         (if (t.drop ((alGet session.lastSentTextByMessagePartId id).getD []).length).length > 0
          then [.sessionUpdate .eventLoop (.agentMessageChunk (.textChunk
            (t.drop ((alGet session.lastSentTextByMessagePartId id).getD []).length)))]
          else []) ++
         (feedTextSnapshots { session with lastSentTextByMessagePartId :=
            (alSet session.lastSentTextByMessagePartId id t) } id rest).2) := rfl

theorem emittedChunkTexts_append (a b : List AgentAction) :
    emittedChunkTexts (a ++ b) = emittedChunkTexts a ++ emittedChunkTexts b :=
  List.filterMap_append a b _

theorem emit_if_flatten (d : List Char) :
    (emittedChunkTexts (if d.length > 0 then
      [.sessionUpdate .eventLoop (.agentMessageChunk (.textChunk d))]
      else [])).flatten = d := by
  by_cases h : d.length > 0
  · simp [emittedChunkTexts, h]
  · have hd : d = [] := List.length_eq_zero.mp (by omega)
    simp [emittedChunkTexts, h, hd]

theorem feed_join (id : String) :
    ∀ (ts : List (List Char)) (session : SessionState) (p : List Char),
      (alGet session.lastSentTextByMessagePartId id).getD [] = p →
      chainFromB p ts = true →
      p ++ (emittedChunkTexts (feedTextSnapshots session id ts).2).flatten
        = ts.getLastD p := by
  intro ts
  induction ts with
  | nil =>
      intro session p _ _
      simp [feedTextSnapshots, emittedChunkTexts, List.getLastD]
  | cons t rest ih =>
      intro session p hp hchain
      simp only [chainFromB, Bool.and_eq_true] at hchain
      obtain ⟨hpre, hrest⟩ := hchain
      have hkey : p ++ t.drop p.length = t := isPrefixOf_append_drop p t hpre
      have hp₂ : (alGet (alSet session.lastSentTextByMessagePartId id t) id).getD []
          = t := by
        rw [alGet_alSet]; rfl
      have hrec := ih { session with lastSentTextByMessagePartId :=
        (alSet session.lastSentTextByMessagePartId id t) } t hp₂ hrest
      rw [feedTextSnapshots_cons, hp]
      rw [emittedChunkTexts_append, List.flatten_append, ← List.append_assoc,
        emit_if_flatten, hkey]
      rw [List.getLastD_cons]
      exact hrec

/-- Claim C1 (code bug, evaluation at the failing input): in
`bypassPermissions` mode a tool part entering `pending` status produces TWO
`tool_call` notifications with status Pending for the same `callID` — one
from the permission branch and a second from the fall-through to
`toAcpNotifications` (there is no `continue` after the branch) — not
exactly one as claimed, though indeed no blocking permission request is
issued. -/
theorem c1_bypass_emits_two_pending :
    (handlePartEvent ⟨.bypassPermissions, false, []⟩
        (.toolPart "c1" "read_file" .pending) (.notSelected "cancelled")).2
      = [.sessionUpdate .arbiter (.toolCall "c1" "read_file" .pending .read []),
         .sessionUpdate .mapper (.toolCall "c1" "read_file" .pending .read [])]
    ∧ ((handlePartEvent ⟨.bypassPermissions, false, []⟩
        (.toolPart "c1" "read_file" .pending) (.notSelected "cancelled")).2.countP
          isPendingToolCallB) = 2
    ∧ ((handlePartEvent ⟨.bypassPermissions, false, []⟩
        (.toolPart "c1" "read_file" .pending) (.notSelected "cancelled")).2.filter
          isPermissionRequestB) = [] :=
  ⟨rfl, rfl, rfl⟩

/-- Claim C2 (confirmed): in `default` mode, for a tool part entering
`pending` status the agent emits the pending `tool_call`, issues the blocking
permission request, and then: if the response is not a selected `allow_once`,
it emits a `tool_call_update` with status Failed for that `callID` and nothing
further for that tool call; if it is a selected `allow_once`, it emits no
further arbiter-issued notification (the only subsequent action is the
notification-mapper fall-through). -/
theorem c2_default_mode_arbiter (c : Bool) (m : List (String × List Char))
    (callID tool : String) (resp : PermissionOutcome) :
    (isAllowOnceSelected resp = false →
      handlePartEvent ⟨.default, c, m⟩ (.toolPart callID tool .pending) resp
        = (⟨.default, c, m⟩,
           [.sessionUpdate .arbiter (.toolCall callID tool .pending (mapToolKind tool) []),
            .permissionRequest callID ("Allow agent to run tool: " ++ tool ++ "?"),
            .sessionUpdate .arbiter (.toolCallUpdate callID none .failed
              [.contentText (str "Permission for tool \x27" ++ str tool ++
                str "\x27 denied.")])]))
    ∧ (isAllowOnceSelected resp = true →
        handlePartEvent ⟨.default, c, m⟩ (.toolPart callID tool .pending) resp
          = (⟨.default, c, m⟩,
             [.sessionUpdate .arbiter (.toolCall callID tool .pending (mapToolKind tool) []),
              .permissionRequest callID ("Allow agent to run tool: " ++ tool ++ "?"),
              .sessionUpdate .mapper (.toolCall callID tool .pending (mapToolKind tool) [])])
        ∧ ((handlePartEvent ⟨.default, c, m⟩ (.toolPart callID tool .pending)
              resp).2.drop 2).filter isArbiterUpdateB = []) := by
  refine ⟨fun h => ?_, fun h => ⟨?_, ?_⟩⟩ <;>
    simp [handlePartEvent, h, mapperActions, toAcpNotifications, isArbiterUpdateB]

/-- Witness for C2 at concrete inputs: a rejected response yields the denial
trace; an `allow_once` selection yields no arbiter notification after the
request. -/
theorem c2_default_mode_arbiter_witness :
    (handlePartEvent ⟨.default, false, []⟩ (.toolPart "c1" "read_file" .pending)
        (.notSelected "cancelled")
      = (⟨.default, false, []⟩,
         [.sessionUpdate .arbiter (.toolCall "c1" "read_file" .pending .read []),
          .permissionRequest "c1" "Allow agent to run tool: read_file?",
          .sessionUpdate .arbiter (.toolCallUpdate "c1" none .failed
            [.contentText (str "Permission for tool \x27read_file\x27 denied.")])]))
    ∧ (handlePartEvent ⟨.default, false, []⟩ (.toolPart "c1" "read_file" .pending)
        (.selected "allow_once")
      = (⟨.default, false, []⟩,
         [.sessionUpdate .arbiter (.toolCall "c1" "read_file" .pending .read []),
          .permissionRequest "c1" "Allow agent to run tool: read_file?",
          .sessionUpdate .mapper (.toolCall "c1" "read_file" .pending .read [])])) := by
  constructor
  · have h := (c2_default_mode_arbiter false [] "c1" "read_file"
      (.notSelected "cancelled")).1 (by decide)
    simpa using h
  · have h := ((c2_default_mode_arbiter false [] "c1" "read_file"
      (.selected "allow_once")).2 (by decide)).1
    simpa using h

/-- Claim C3 (confirmed): in `plan` mode, a tool part entering `pending`
status yields exactly one `tool_call_update` notification with status Failed
carrying the "blocked in Plan Mode" message, no permission request and no
other notification, and the session state is unchanged. -/
theorem c3_plan_mode_blocks (c : Bool) (m : List (String × List Char))
    (callID tool : String) (resp : PermissionOutcome) :
    handlePartEvent ⟨.plan, c, m⟩ (.toolPart callID tool .pending) resp
      = (⟨.plan, c, m⟩,
         [.sessionUpdate .arbiter (.toolCallUpdate callID none .failed
           [.contentText (str "Tool execution blocked in Plan Mode.")])]) := rfl

/-- Claim C4 (confirmed): feeding any prefix-chained sequence of cumulative
snapshots for one fresh part through the event loop makes the concatenation
of the emitted message-chunk texts equal to the last snapshot; in particular
"Hel" then "Hello" emits the chunks "Hel" then "lo". -/
theorem c4_delta_chain_concat (mode : PermissionMode) (c : Bool)
    (m : List (String × List Char)) (id : String) (t : List Char)
    (ts : List (List Char))
    (hfresh : alGet m id = none)
    (hchain : chainFromB t ts = true) :
    (emittedChunkTexts (feedTextSnapshots ⟨mode, c, m⟩ id (t :: ts)).2).flatten
      = ts.getLastD t
    ∧ (feedTextSnapshots ⟨.default, false, []⟩ "p1" [str "Hel", str "Hello"]).2
      = [.sessionUpdate .eventLoop (.agentMessageChunk (.textChunk (str "Hel"))),
         .sessionUpdate .eventLoop (.agentMessageChunk (.textChunk (str "lo")))] := by
  constructor
  · have hp : (alGet (SessionState.mk mode c m).lastSentTextByMessagePartId id).getD []
        = ([] : List Char) := by
      simp only [hfresh]; rfl
    have hnil : List.isPrefixOf ([] : List Char) t = true := by
      cases t <;> rfl
    have hchain₂ : chainFromB [] (t :: ts) = true := by
      simp only [chainFromB]
      rw [hnil, Bool.true_and]
      exact hchain
    have h := feed_join id (t :: ts) ⟨mode, c, m⟩ [] hp hchain₂
    rw [List.nil_append] at h
    rw [h]
    exact List.getLastD_cons [] t ts
  · decide

/-- Witness for C4: the fresh part "p1" with chain ["Hel", "Hello"]. -/
theorem c4_delta_chain_concat_witness :
    (emittedChunkTexts (feedTextSnapshots ⟨.default, false, []⟩ "p1"
        [str "Hel", str "Hello"]).2).flatten = [str "Hello"].getLastD (str "Hel") :=
  (c4_delta_chain_concat .default false [] "p1" (str "Hel") [str "Hello"]
    rfl (by decide)).1

/-- Claim C5 (confirmed): when the computed delta for a text or reasoning part
update has length zero, the event loop sends no notification for that update,
while the stored previous text for the part is still replaced by the new
snapshot. -/
theorem c5_zero_delta_suppressed (session : SessionState) (id : String)
    (text : List Char) (ts : Nat) (resp : PermissionOutcome)
    (h : (text.drop ((alGet session.lastSentTextByMessagePartId id).getD
      []).length).length = 0) :
    handlePartEvent session (.textPart id text (some ts)) resp
      = ({ session with lastSentTextByMessagePartId :=
          (alSet session.lastSentTextByMessagePartId id text) }, [])
    ∧ handlePartEvent session (.reasoningPart id text) resp
      = ({ session with lastSentTextByMessagePartId :=
          (alSet session.lastSentTextByMessagePartId id text) }, []) := by
  constructor <;> simp [handlePartEvent, h]

/-- Witness for C5: resending the identical snapshot "Hel" for part "p1"
yields a zero-length delta, no notification, and an updated store. -/
theorem c5_zero_delta_suppressed_witness :
    handlePartEvent ⟨.default, false, [("p1", str "Hel")]⟩
        (.textPart "p1" (str "Hel") (some 0)) (.notSelected "cancelled")
      = (⟨.default, false, [("p1", str "Hel")]⟩, []) := by
  have h := (c5_zero_delta_suppressed ⟨.default, false, [("p1", str "Hel")]⟩
    "p1" (str "Hel") 0 (.notSelected "cancelled") (by decide)).1
  simpa using h

/-- Claim C6 (confirmed): a `text` part update with no timestamp field is
dropped unconditionally, whatever its content and whatever the session state:
the state is unchanged and no action of any kind is performed. -/
theorem c6_echo_filter_drops (session : SessionState) (id : String)
    (text : List Char) (resp : PermissionOutcome) :
    handlePartEvent session (.textPart id text none) resp = (session, []) := rfl

/-- Claim C7 (confirmed): `mapToolKind` agrees everywhere with the
first-matching-prefix table of the specification (read→Read;
write/edit/apply/insert→Edit; execute→Execute; search/list→Search;
browser→Fetch; update/ask/new_task→Think; switch→SwitchMode; else→Other), and
maps the five sample names as claimed. -/
theorem c7_tool_kind_table :
    (∀ s : String, mapToolKind s = mapToolKindSpec s)
    ∧ mapToolKind "read_file" = .read
    ∧ mapToolKind "write_file" = .edit
    ∧ mapToolKind "execute_bash" = .execute
    ∧ mapToolKind "search_code" = .search
    ∧ mapToolKind "unknown_tool" = .other :=
  ⟨fun _ => rfl, by decide, by decide, by decide, by decide, by decide⟩

/-- Counterexample to claim C8: a terminal already in the terminal state
`exited` (with exit status 0) has its status changed to `killed` by a kill
request — the kill handler sets `status = "killed"` with no guard, so a
terminal state can be exited after all. -/
theorem c8_kill_exited_counterexample :
    killTerminal [("t1", ⟨"sh1", [], some ⟨some 0, none⟩, .exited⟩)] "t1"
      = .ok [("t1", ⟨"sh1", [], some ⟨some 0, none⟩, .killed⟩)]
    ∧ TermStatus.killed ≠ TermStatus.exited :=
  ⟨rfl, by decide⟩

/-- Claim C8 as amended (proved): once a terminal's status has left
`started`, the read operations (`terminalOutput` and the
`waitForTerminalExit` poll) never change it and report the stored values,
but `terminal/kill` is an exception: it unconditionally sets the status of
any existing terminal to `killed`, even one already in a terminal state. -/
theorem c8_terminal_ops (terminals : TermMap) (terminalId : String)
    (t : BackgroundTerminal)
    (h : alGet terminals terminalId = some t) :
    killTerminal terminals terminalId
      = .ok (alSet terminals terminalId { t with status := .killed })
    ∧ terminalOutput terminals terminalId = .ok (t.output, false, t.exitStatus)
    ∧ (t.status ≠ .started →
        waitForTerminalExit terminals terminalId
          = .ok (some (t.exitStatus.bind (fun e => e.exitCode),
              t.exitStatus.bind (fun e => e.signal)))) := by
  refine ⟨?_, ?_, fun hs => ?_⟩
  · simp [killTerminal, h]
  · simp [terminalOutput, h]
  · simp [waitForTerminalExit, h, hs]

/-- Witness for the amended C8 at a concrete exited terminal. -/
theorem c8_terminal_ops_witness :
    killTerminal [("t2", ⟨"sh2", str "done", some ⟨some 0, none⟩, .exited⟩)] "t2"
      = .ok [("t2", ⟨"sh2", str "done", some ⟨some 0, none⟩, .killed⟩)]
    ∧ waitForTerminalExit
        [("t2", ⟨"sh2", str "done", some ⟨some 0, none⟩, .exited⟩)] "t2"
      = .ok (some (some 0, none)) := by
  have h := c8_terminal_ops
    [("t2", ⟨"sh2", str "done", some ⟨some 0, none⟩, .exited⟩)] "t2"
    ⟨"sh2", str "done", some ⟨some 0, none⟩, .exited⟩ rfl
  exact ⟨h.1, by simpa using h.2.2 (by decide)⟩

/-- Claim C9 (confirmed): when the prompt call returns a final message, a
message-level error is not thrown: the stop reason is `cancelled` for a
`MessageAbortedError`, `refusal` for any other error name, and `end_turn`
when the final message carries no error. -/
theorem c9_prompt_stop_reason (e : MessageErr) :
    (e.name = "MessageAbortedError" →
      promptFinish none (some ⟨some e⟩) = .ok .cancelled)
    ∧ (e.name ≠ "MessageAbortedError" →
      promptFinish none (some ⟨some e⟩) = .ok .refusal)
    ∧ promptFinish none (some ⟨none⟩) = .ok .endTurn := by
  refine ⟨fun h => ?_, fun h => ?_, rfl⟩ <;>
    simp [promptFinish, promptStopReason, h]

/-- Witness for C9 at two concrete message errors. -/
theorem c9_prompt_stop_reason_witness :
    promptFinish none (some ⟨some ⟨"MessageAbortedError", "aborted"⟩⟩)
      = .ok .cancelled
    ∧ promptFinish none (some ⟨some ⟨"ProviderAuthError", "bad key"⟩⟩)
      = .ok .refusal :=
  ⟨(c9_prompt_stop_reason ⟨"MessageAbortedError", "aborted"⟩).1 rfl,
   (c9_prompt_stop_reason ⟨"ProviderAuthError", "bad key"⟩).2.1 (by decide)⟩

/-- Claim C10 (confirmed): for an existing session, `setSessionMode` with one
of the four recognized mode ids replaces exactly that session's
`permissionMode` (all other fields and sessions unchanged) and succeeds; any
other mode id makes it throw "Invalid mode" with no state change. -/
theorem c10_set_session_mode (sessions : List (String × SessionState))
    (sessionId modeId : String) (s : SessionState)
    (h : alGet sessions sessionId = some s) :
    (∀ m₂ : PermissionMode, parsePermissionMode modeId = some m₂ →
      setSessionMode sessions sessionId modeId
        = .ok (alSet sessions sessionId { s with permissionMode := m₂ }))
    ∧ (parsePermissionMode modeId = none →
        setSessionMode sessions sessionId modeId = .error "Invalid mode") := by
  refine ⟨fun m₂ hm => ?_, fun hm => ?_⟩ <;>
    simp [setSessionMode, h, hm]

/-- Witness for C10: switching an existing session to `plan` succeeds; an
unknown mode id is rejected. -/
theorem c10_set_session_mode_witness :
    setSessionMode [("s1", ⟨.default, false, []⟩)] "s1" "plan"
      = .ok [("s1", ⟨.plan, false, []⟩)]
    ∧ setSessionMode [("s1", ⟨.default, false, []⟩)] "s1" "yolo"
      = .error "Invalid mode" := by
  have h := c10_set_session_mode [("s1", ⟨.default, false, []⟩)] "s1" "yolo"
    ⟨.default, false, []⟩ rfl
  have h₂ := c10_set_session_mode [("s1", ⟨.default, false, []⟩)] "s1" "plan"
    ⟨.default, false, []⟩ rfl
  refine ⟨?_, h.2 (by decide)⟩
  have h₃ := h₂.1 .plan (by decide)
  simpa using h₃

end AcpAgent
